import Mathlib

/-
Verification of the bucketbot conversation engine (src/bucketbot.py).

The Python source is shallowly embedded below.  Pure helpers become Lean
functions.  Each async telegram handler becomes a pure function from the
message text and the per-user session data to a handler return value, the
updated session data, and a list of emitted effects (replies and calls to
the submission client).  The single network call inside post_entry is made
explicit by passing in a NetResult value describing what the call does
(either a response with a status code and a body, or a raised exception
carrying a message).  The telegram ConversationHandler bookkeeping is
modelled by a Boolean inConv flag: true while the conversation is in the
WAITING_FOR_CONTENT state, false when it has ended or has not started.
-/

namespace BucketBot

/-- Python str.strip whitespace test (space, tab, newline, carriage return,
vertical tab, form feed). -/
def py_is_space (c : Char) : Bool :=
  c = ' ' || c = '\t' || c = '\n' || c = '\r' || c.toNat = 11 || c.toNat = 12

/-- Python str.strip: remove leading and trailing whitespace. -/
def py_strip (s : String) : String :=
  String.mk (((s.data.dropWhile py_is_space).reverse.dropWhile py_is_space).reverse)

/-- Python str.lower restricted to the per-character case mapping. -/
def py_lower (s : String) : String := String.mk (s.data.map Char.toLower)

/-- Source line 27: convert choice text to entry type via the choice_map
dictionary with .get (None when absent). -/
def get_type_by_choice (choice : String) : Option String :=
  if choice = "Task" then some "task"
  else if choice = "Note" then some "note"
  else if choice = "Bookmark" then some "bookmark"
  else none

/-- The api_config tuple (base_url, headers) stored in bot_data. -/
structure ApiConfig where
  base_url : String
  headers : List (String × String)
deriving DecidableEq, Repr

/-- What the single requests.post call inside post_entry does: either it
completes with a status code and body text, or it raises an exception whose
string form is the given message. -/
inductive NetResult where
  | response (status : Nat) (text : String)
  | exn (msg : String)
deriving DecidableEq, Repr

/-- Source line 32: post entry to API.  Returns (status_code, text) on a
completed call and (0, "Network error: " ++ e) when the call raises. -/
def post_entry (base_url : String) (headers : List (String × String))
    (entry_type : Option String) (content : String) (net : NetResult) :
    Nat × String :=
  match base_url, headers, entry_type, content, net with
  | _, _, _, _, .response status text => (status, text)
  | _, _, _, _, .exn e => (0, "Network error: " ++ e)

/-- The per-user context.user_data dictionary: the two keys the source ever
writes, entry_type and type_display; none models an absent key. -/
structure UserData where
  entry_type : Option String
  type_display : Option String
deriving DecidableEq, Repr

/-- context.user_data.clear() -/
def UserData.clear (_ : UserData) : UserData := ⟨none, none⟩

/-- Source line 45: the fixed reply keyboard with the three category
display labels. -/
def TYPE_KEYBOARD : List String := ["Task", "Note", "Bookmark"]

/-- Observable effects of one handler invocation: a reply_text call (with
its optional reply keyboard) or a call to the submission client post_entry
with the entry type and content it was given. -/
inductive Effect where
  | reply (text : String) (options : Option (List String))
  | submit (entry_type : Option String) (content : String)
deriving DecidableEq, Repr

/-- The value a conversation handler returns: WAITING_FOR_CONTENT (= 1) or
ConversationHandler.END. -/
inductive HandlerResult where
  | waiting_for_content
  | conversation_end
deriving DecidableEq, Repr

def HandlerResult.isWaiting : HandlerResult → Bool
  | .waiting_for_content => true
  | .conversation_end => false

/-- Reply text of start (source lines 53 to 58). -/
def startMsg : String :=
  "🚀 *Bucket Bot Ready!*\n\nSelect entry type:"

/-- Reply text of the invalid selection branch (source line 68). -/
def invalidSelectionMsg : String :=
  "❌ Invalid selection. Please choose Task, Note, or Bookmark."

/-- Reply text after a valid selection (source lines 78 to 79). -/
def selectedMsg (choice : String) : String :=
  "✅ Selected: *" ++ choice ++ "*\n\nNow enter your " ++ py_lower choice ++ " content:"

/-- Reply text for empty content (source line 97). -/
def emptyContentMsg : String :=
  "❌ Content cannot be empty. Please enter some text:"

/-- Reply text for a missing api_config (source line 106). -/
def apiConfigErrorMsg : String :=
  "❌ API configuration error. Please restart the bot with /start"

/-- Reply text of the success branch (source lines 117 to 120), with the
status code and response body interpolated verbatim. -/
def successMsg (type_display : String) (status_code : Nat) (response_text : String) : String :=
  "✅ *" ++ type_display ++ " posted successfully!*\n\nStatus: " ++ toString status_code
    ++ "\nResponse: " ++ response_text ++ "\n\nSelect next entry type:"

/-- Reply text of the failure branch (source lines 126 to 129), with the
status code and response body interpolated verbatim. -/
def failMsg (type_display : String) (status_code : Nat) (response_text : String) : String :=
  "❌ *Failed to post " ++ py_lower type_display ++ "*\n\nStatus: " ++ toString status_code
    ++ "\nResponse: " ++ response_text ++ "\n\nPlease try again or select a different type:"

/-- Reply text of help_command (source lines 141 to 149). -/
def helpMsg : String :=
  "🤖 *Bucket Bot Help*\n\n1. Select an entry type: Task, Note, or Bookmark\n2. Enter your content\n3. Bot posts it and shows the result\n4. Repeat!\n\nCommands:\n/start - Begin using the bot\n/help - Show this help message\n\nReady to post!"

/-- Reply text of cancel (source line 157). -/
def cancelMsg : String :=
  "Operation cancelled. Use /start to begin again."

/-- Source line 51: start.  Replies with the keyboard and returns
WAITING_FOR_CONTENT.  It does not touch user_data. -/
def start : HandlerResult × List Effect :=
  (.waiting_for_content, [.reply startMsg (some TYPE_KEYBOARD)])

/-- Source line 61: handle_type_selection.  On an invalid choice it
re-prompts with the keyboard; on a valid one it stores entry_type and
type_display and asks for content. -/
def handle_type_selection (text : String) (ud : UserData) :
    HandlerResult × UserData × List Effect :=
  match get_type_by_choice text with
  | none => (.waiting_for_content, ud, [.reply invalidSelectionMsg (some TYPE_KEYBOARD)])
  | some entry_type =>
    (.waiting_for_content, ⟨some entry_type, some text⟩, [.reply (selectedMsg text) none])

/-- Source line 84: handle_content.  Checks the raw text against the
category labels (redispatching to handle_type_selection on a match), then
validates the stripped content, then posts and reports, clearing user_data
at the end of a completed cycle.  When api_config is absent it reports the
configuration error and returns ConversationHandler.END without clearing
user_data. -/
def handle_content (text : String) (ud : UserData) (api_config : Option ApiConfig)
    (net : NetResult) : HandlerResult × UserData × List Effect :=
  let content := py_strip text
  let entry_type := ud.entry_type
  let type_display := ud.type_display.getD "Entry"
  if (get_type_by_choice text).isSome then
    handle_type_selection text ud
  else if content = "" then
    (.waiting_for_content, ud, [.reply emptyContentMsg none])
  else
    match api_config with
    | none => (.conversation_end, ud, [.reply apiConfigErrorMsg none])
    | some cfg =>
      let r := post_entry cfg.base_url cfg.headers entry_type content net
      let status_code := r.1
      let response_text := r.2
      if status_code = 200 ∨ status_code = 201 then
        (.waiting_for_content, UserData.clear ud,
          [.submit entry_type content,
           .reply (successMsg type_display status_code response_text) (some TYPE_KEYBOARD)])
      else
        (.waiting_for_content, UserData.clear ud,
          [.submit entry_type content,
           .reply (failMsg type_display status_code response_text) (some TYPE_KEYBOARD)])

/-- Source line 138: help_command.  Replies with the help text and the
keyboard; returns None and touches neither the conversation state nor
user_data. -/
def help_command : List Effect := [.reply helpMsg (some TYPE_KEYBOARD)]

/-- Source line 154: cancel.  Replies, clears user_data and ends the
conversation. -/
def cancel (ud : UserData) : HandlerResult × UserData × List Effect :=
  (.conversation_end, UserData.clear ud, [.reply cancelMsg (some TYPE_KEYBOARD)])

/-- The four inbound event shapes the engine consumes. -/
inductive Event where
  | startCommand
  | helpCommand
  | cancelCommand
  | textMessage (text : String)
deriving DecidableEq, Repr

/-- Per-identity engine state: whether the telegram conversation is active
in its single WAITING_FOR_CONTENT state, plus the user_data dictionary. -/
structure EngineState where
  inConv : Bool
  ud : UserData
deriving DecidableEq, Repr

/-- The abstract conversation state of the spec, derived from the engine
state: AwaitingContent when a category is stored, AwaitingCategory when the
conversation is active without one, Idle when no conversation is active. -/
inductive ConversationState where
  | Idle
  | AwaitingCategory
  | AwaitingContent
deriving DecidableEq, Repr

def conversationState (s : EngineState) : ConversationState :=
  if s.inConv then
    if s.ud.entry_type.isSome then .AwaitingContent else .AwaitingCategory
  else .Idle

/-- One dispatch step, following the handler wiring in main (source lines
182 to 196).  A start command is the conversation entry point and the
ConversationHandler is built without allow_reentry, so while the
conversation is active a start command matches no handler (the state
handler excludes commands and the only fallback is cancel) and is dropped;
only from an inactive conversation does it run start.  A help command
always runs the standalone help_command handler; a cancel command is the
conversation fallback, so it runs cancel only while the conversation is
active; a text message is handled by handle_content only while the
conversation is active. -/
def step (api_config : Option ApiConfig) (net : NetResult) (s : EngineState)
    (e : Event) : EngineState × List Effect :=
  match e with
  | .startCommand =>
    if s.inConv then (s, [])
    else ({ inConv := start.1.isWaiting, ud := s.ud }, start.2)
  | .helpCommand => (s, help_command)
  | .cancelCommand =>
    if s.inConv then
      let r := cancel s.ud
      ({ inConv := r.1.isWaiting, ud := r.2.1 }, r.2.2)
    else (s, [])
  | .textMessage t =>
    if s.inConv then
      let r := handle_content t s.ud api_config net
      ({ inConv := r.1.isWaiting, ud := r.2.1 }, r.2.2)
    else (s, [])

/-- A fresh identity: no active conversation, empty user_data. -/
def initState : EngineState := ⟨false, ⟨none, none⟩⟩

/-- States reachable from a fresh identity under a fixed process-wide
api_config, with the network free to behave differently on every call. -/
inductive Reachable (api : Option ApiConfig) : EngineState → Prop where
  | init : Reachable api initState
  | next (net : NetResult) (e : Event) (s : EngineState) :
      Reachable api s → Reachable api (step api net s e).1

/-- A concrete api_config with the base URL and header shape built in main
(source lines 169 to 173). -/
def cfgW : ApiConfig :=
  ⟨"https://vulkan.sumeetsaini.com/well",
   [("X-API-Key", "key"), ("Content-Type", "application/json")]⟩

/-- A concrete benign network behaviour for steps whose network call is
irrelevant. -/
def netW : NetResult := .response 200 "ok"

/-- State after /start from a fresh identity (api_config present): the
conversation is active with empty user_data, i.e. AwaitingCategory. -/
def s_start : EngineState := (step (some cfgW) netW initState .startCommand).1

/-- State after /start then selecting Note (api_config present). -/
def s_note : EngineState := (step (some cfgW) netW s_start (.textMessage "Note")).1

/-- State after /start then selecting Task (api_config present). -/
def s_task : EngineState := (step (some cfgW) netW s_start (.textMessage "Task")).1

/-- State after /start from a fresh identity when no api_config is
available. -/
def s_start0 : EngineState := (step none netW initState .startCommand).1

/-- State after /start then selecting Task, no api_config available. -/
def s_task0 : EngineState := (step none netW s_start0 (.textMessage "Task")).1

/-- State after /start, selecting Task, then sending content while no
api_config is available: the conversation has ended with user_data still
holding the selected category. -/
def s_end0 : EngineState := (step none netW s_task0 (.textMessage "buy milk")).1

/-- State after /start then selecting Note, no api_config available. -/
def s_note0 : EngineState := (step none netW s_start0 (.textMessage "Note")).1

/-- With an api_config present, handle_content always returns
WAITING_FOR_CONTENT: every branch of the function except the missing
api_config one does. -/
theorem handle_content_waiting (t : String) (ud : UserData) (cfg : ApiConfig)
    (net : NetResult) :
    (handle_content t ud (some cfg) net).1 = HandlerResult.waiting_for_content := by
  unfold handle_content
  cases h : get_type_by_choice t with
  | some v => simp [h, handle_type_selection]
  | none =>
    simp only [h, Option.isSome_none, Bool.false_eq_true, if_false]
    split
    · rfl
    · split <;> rfl

/-- With an api_config present, every reachable state keeps the stored
category only while the conversation is active. -/
theorem reachable_entry_in_conv (cfg : ApiConfig) (s : EngineState)
    (h : Reachable (some cfg) s) :
    s.ud.entry_type.isSome → s.inConv = true := by
  induction h with
  | init => simp [initState]
  | next net e s hs ih =>
    cases e with
    | startCommand =>
      by_cases hc : s.inConv
      · simp [step, hc]
      · intro _
        simp [step, hc, start, HandlerResult.isWaiting]
    | helpCommand => exact ih
    | cancelCommand =>
      by_cases hc : s.inConv
      · intro hh
        simp [step, hc, cancel, UserData.clear] at hh
      · simpa [step, hc] using ih
    | textMessage t =>
      by_cases hc : s.inConv
      · intro _
        simp [step, hc, handle_content_waiting, HandlerResult.isWaiting]
      · simpa [step, hc] using ih

/-- Claim C8: a help command never changes the engine state, so two
consecutive help commands leave the state, the derived conversation state
and the session context exactly as they were before the first one. -/
theorem c8_help_idempotent (api : Option ApiConfig) (n1 n2 : NetResult) (s : EngineState) :
    (step api n1 s .helpCommand).1 = s ∧
    (step api n2 (step api n1 s .helpCommand).1 .helpCommand).1 = s ∧
    conversationState (step api n2 (step api n1 s .helpCommand).1 .helpCommand).1 =
      conversationState s ∧
    (step api n2 (step api n1 s .helpCommand).1 .helpCommand).1.ud = s.ud :=
  ⟨rfl, rfl, rfl, rfl⟩

/-- Claim C4 (amended): a start command never clears the session context.
After it the conversation is active in every case, but only from an
inactive conversation does it run start and emit the category option set;
while a conversation is active it matches no handler, so nothing is
emitted and the state is untouched. -/
theorem c4_start_behaviour (api : Option ApiConfig) (net : NetResult) (s : EngineState) :
    (step api net s .startCommand).1.ud = s.ud ∧
    (step api net s .startCommand).1.inConv = true ∧
    (step api net s .startCommand).2 =
      (if s.inConv then [] else [.reply startMsg (some TYPE_KEYBOARD)]) := by
  by_cases hc : s.inConv <;> simp [step, hc, start, HandlerResult.isWaiting]

/-- Claim C4 is false as stated: from the reachable state with category
Task already selected, a start command is dropped by the dispatch, so no
message carrying the category options is emitted, the context stays
non-empty, and the resulting derived state is AwaitingContent, not
AwaitingCategory. -/
theorem c4_counterexample :
    Reachable (some cfgW) s_task ∧
    (step (some cfgW) netW s_task .startCommand).2 = [] ∧
    conversationState (step (some cfgW) netW s_task .startCommand).1 =
      ConversationState.AwaitingContent ∧
    (step (some cfgW) netW s_task .startCommand).1.ud ≠ UserData.mk none none := by
  refine ⟨?_, by decide, by decide, by decide⟩
  exact Reachable.next netW (.textMessage "Task") s_start
    (Reachable.next netW .startCommand initState Reachable.init)

/-- Claim C1: the code contradicts the documented behaviour.  From the
reachable AwaitingCategory state (conversation active, no category stored),
the non-label text xyz is not answered with the invalid selection
re-prompt; handle_content falls through to the submission branch and calls
the submission client with entry type none and content xyz, then reports
the API outcome. -/
theorem c1_invalid_selection_bug :
    conversationState s_start = ConversationState.AwaitingCategory ∧
    Reachable (some cfgW) s_start ∧
    step (some cfgW) (.response 400 "bad") s_start (.textMessage "xyz") =
      (⟨true, ⟨none, none⟩⟩,
       [.submit none "xyz",
        .reply (failMsg "Entry" 400 "bad") (some TYPE_KEYBOARD)]) := by
  refine ⟨by decide, ?_, by decide⟩
  exact Reachable.next netW .startCommand initState Reachable.init

/-- Claim C2 (amended): when an api_config is available, the invariant
holds on every reachable state: the derived conversation state is
AwaitingContent exactly when the stored entry_type is non-empty. -/
theorem c2_state_iff_category (cfg : ApiConfig) (s : EngineState)
    (h : Reachable (some cfg) s) :
    conversationState s = ConversationState.AwaitingContent ↔ s.ud.entry_type ≠ none := by
  have key := reachable_entry_in_conv cfg s h
  constructor
  · intro hC
    unfold conversationState at hC
    by_cases hI : s.inConv
    · by_cases hS : s.ud.entry_type.isSome
      · exact Option.ne_none_iff_isSome.mpr hS
      · simp [hI, hS] at hC
    · simp [hI] at hC
  · intro hne
    have hS : s.ud.entry_type.isSome := Option.ne_none_iff_isSome.mp hne
    unfold conversationState
    simp [key hS, hS]

/-- Witness for C2 at the reachable AwaitingContent state with category
note selected. -/
theorem c2_state_iff_category_witness :
    Reachable (some cfgW) s_note ∧
    (conversationState s_note = ConversationState.AwaitingContent ↔
      s_note.ud.entry_type ≠ none) := by
  have hr : Reachable (some cfgW) s_note :=
    Reachable.next netW (.textMessage "Note") s_start
      (Reachable.next netW .startCommand initState Reachable.init)
  exact ⟨hr, c2_state_iff_category cfgW s_note hr⟩

/-- Claim C2 is false as stated: when no api_config is available, the
configuration-error path ends the conversation while leaving entry_type
set, so after that event the state is not AwaitingContent although the
stored category is non-empty. -/
theorem c2_counterexample :
    Reachable none s_end0 ∧
    ¬ (conversationState s_end0 = ConversationState.AwaitingContent ↔
        s_end0.ud.entry_type ≠ none) := by
  refine ⟨?_, by decide⟩
  exact Reachable.next netW (.textMessage "buy milk") s_task0
    (Reachable.next netW (.textMessage "Task") s_start0
      (Reachable.next netW .startCommand initState Reachable.init))

/-- Claim C3 (amended): for every remote call that completes with a status
code, the engine classifies the outcome as success exactly when the status
is 200 or 201 (not the whole 2xx class), and the status and body appear
verbatim in the report either way. -/
theorem c3_status_classification (cfg : ApiConfig) (ud : UserData) (t : String)
    (s : Nat) (b : String)
    (h1 : get_type_by_choice t = none) (h2 : py_strip t ≠ "") :
    (step (some cfg) (.response s b) ⟨true, ud⟩ (.textMessage t)).2 =
      [.submit ud.entry_type (py_strip t),
       .reply (if s = 200 ∨ s = 201 then successMsg (ud.type_display.getD "Entry") s b
               else failMsg (ud.type_display.getD "Entry") s b)
              (some TYPE_KEYBOARD)] := by
  simp only [step, handle_content, h1, h2, post_entry, Option.isSome_none,
    Bool.false_eq_true, if_false]
  by_cases hs : s = 200 ∨ s = 201 <;> simp [hs]

/-- Witness for C3 at status 204 with category note selected. -/
theorem c3_status_classification_witness :
    get_type_by_choice "buy milk" = none ∧ py_strip "buy milk" ≠ "" ∧
    (step (some cfgW) (.response 204 "nc") ⟨true, ⟨some "note", some "Note"⟩⟩
        (.textMessage "buy milk")).2 =
      [.submit (some "note") (py_strip "buy milk"),
       .reply (if 204 = 200 ∨ 204 = 201 then successMsg "Note" 204 "nc"
               else failMsg "Note" 204 "nc")
              (some TYPE_KEYBOARD)] :=
  ⟨by decide, by decide,
   c3_status_classification cfgW ⟨some "note", some "Note"⟩ "buy milk" 204 "nc"
     (by decide) (by decide)⟩

/-- Claim C3 is false as stated: status 204 is in the 2xx class, yet from
the reachable AwaitingContent state the engine reports it through the
failure message, which differs from the success message. -/
theorem c3_counterexample :
    (200 ≤ 204 ∧ 204 ≤ 299) ∧
    Reachable (some cfgW) s_note ∧
    (step (some cfgW) (.response 204 "nc") s_note (.textMessage "buy milk")).2 =
      [.submit (some "note") "buy milk",
       .reply (failMsg "Note" 204 "nc") (some TYPE_KEYBOARD)] ∧
    failMsg "Note" 204 "nc" ≠ successMsg "Note" 204 "nc" := by
  refine ⟨by decide, ?_, by decide, by decide⟩
  exact Reachable.next netW (.textMessage "Note") s_start
    (Reachable.next netW .startCommand initState Reachable.init)

/-- Claim C5 (amended): when no api_config is available, the engine reports
the configuration error and never calls the submission client, but it ends
the conversation (ConversationHandler.END) and leaves the session context
unchanged instead of clearing it and returning to AwaitingCategory. -/
theorem c5_no_config (net : NetResult) (ud : UserData) (t : String)
    (h1 : get_type_by_choice t = none) (h2 : py_strip t ≠ "") :
    step none net ⟨true, ud⟩ (.textMessage t) =
      (⟨false, ud⟩, [.reply apiConfigErrorMsg none]) := by
  simp [step, handle_content, h1, h2, HandlerResult.isWaiting]

/-- Witness for C5 with category note selected and content buy milk. -/
theorem c5_no_config_witness :
    get_type_by_choice "buy milk" = none ∧ py_strip "buy milk" ≠ "" ∧
    step none netW ⟨true, ⟨some "note", some "Note"⟩⟩ (.textMessage "buy milk") =
      (⟨false, ⟨some "note", some "Note"⟩⟩, [.reply apiConfigErrorMsg none]) :=
  ⟨by decide, by decide,
   c5_no_config netW ⟨some "note", some "Note"⟩ "buy milk" (by decide) (by decide)⟩

/-- Claim C5 is false as stated: from the reachable state with category
note selected and no api_config, sending content leaves a state that is
not AwaitingCategory (the conversation has ended) and a context that is
not cleared. -/
theorem c5_counterexample :
    Reachable none s_note0 ∧
    conversationState (step none netW s_note0 (.textMessage "buy milk")).1 ≠
      ConversationState.AwaitingCategory ∧
    (step none netW s_note0 (.textMessage "buy milk")).1.ud ≠ UserData.mk none none := by
  refine ⟨?_, by decide, by decide⟩
  exact Reachable.next netW (.textMessage "Note") s_start0
    (Reachable.next netW .startCommand initState Reachable.init)

/-- Claim C6: with an api_config present, every completed submission cycle,
whatever the network does (a response of any status, or a raised
exception), reports the outcome produced by post_entry through the success
or failure message, clears the session context, and returns the derived
state to AwaitingCategory.  The engine is a total function of the event and
the network behaviour, so no exception escapes it. -/
theorem c6_submission_cycle (cfg : ApiConfig) (net : NetResult) (ud : UserData)
    (t : String)
    (h1 : get_type_by_choice t = none) (h2 : py_strip t ≠ "") :
    conversationState (step (some cfg) net ⟨true, ud⟩ (.textMessage t)).1 =
      ConversationState.AwaitingCategory ∧
    (step (some cfg) net ⟨true, ud⟩ (.textMessage t)).1.ud = UserData.mk none none ∧
    (step (some cfg) net ⟨true, ud⟩ (.textMessage t)).2 =
      [.submit ud.entry_type (py_strip t),
       .reply
         (if (post_entry cfg.base_url cfg.headers ud.entry_type (py_strip t) net).1 = 200 ∨
             (post_entry cfg.base_url cfg.headers ud.entry_type (py_strip t) net).1 = 201
          then successMsg (ud.type_display.getD "Entry")
                 (post_entry cfg.base_url cfg.headers ud.entry_type (py_strip t) net).1
                 (post_entry cfg.base_url cfg.headers ud.entry_type (py_strip t) net).2
          else failMsg (ud.type_display.getD "Entry")
                 (post_entry cfg.base_url cfg.headers ud.entry_type (py_strip t) net).1
                 (post_entry cfg.base_url cfg.headers ud.entry_type (py_strip t) net).2)
         (some TYPE_KEYBOARD)] := by
  refine ⟨?_, ?_, ?_⟩ <;>
    simp only [step, handle_content, h1, h2, Option.isSome_none, Bool.false_eq_true,
      if_false] <;>
    by_cases hs :
        (post_entry cfg.base_url cfg.headers ud.entry_type (py_strip t) net).1 = 200 ∨
        (post_entry cfg.base_url cfg.headers ud.entry_type (py_strip t) net).1 = 201 <;>
    simp [hs, conversationState, UserData.clear, HandlerResult.isWaiting]

/-- Witness for C6 with the network raising connection refused, category
note, content buy milk. -/
theorem c6_submission_cycle_witness :
    get_type_by_choice "buy milk" = none ∧ py_strip "buy milk" ≠ "" ∧
    (conversationState
        (step (some cfgW) (.exn "connection refused") ⟨true, ⟨some "note", some "Note"⟩⟩
          (.textMessage "buy milk")).1 = ConversationState.AwaitingCategory ∧
     (step (some cfgW) (.exn "connection refused") ⟨true, ⟨some "note", some "Note"⟩⟩
        (.textMessage "buy milk")).1.ud = UserData.mk none none ∧
     (step (some cfgW) (.exn "connection refused") ⟨true, ⟨some "note", some "Note"⟩⟩
        (.textMessage "buy milk")).2 =
       [.submit (some "note") (py_strip "buy milk"),
        .reply
          (if (post_entry cfgW.base_url cfgW.headers (some "note") (py_strip "buy milk")
                  (.exn "connection refused")).1 = 200 ∨
              (post_entry cfgW.base_url cfgW.headers (some "note") (py_strip "buy milk")
                  (.exn "connection refused")).1 = 201
           then successMsg "Note"
                  (post_entry cfgW.base_url cfgW.headers (some "note") (py_strip "buy milk")
                      (.exn "connection refused")).1
                  (post_entry cfgW.base_url cfgW.headers (some "note") (py_strip "buy milk")
                      (.exn "connection refused")).2
           else failMsg "Note"
                  (post_entry cfgW.base_url cfgW.headers (some "note") (py_strip "buy milk")
                      (.exn "connection refused")).1
                  (post_entry cfgW.base_url cfgW.headers (some "note") (py_strip "buy milk")
                      (.exn "connection refused")).2)
          (some TYPE_KEYBOARD)]) :=
  ⟨by decide, by decide,
   c6_submission_cycle cfgW (.exn "connection refused") ⟨some "note", some "Note"⟩
     "buy milk" (by decide) (by decide)⟩

/-- Claim C7: a text message that exactly matches a category display label,
received while the conversation is active (in particular in
AwaitingContent), is redispatched to handle_type_selection and treated as a
new category selection: the only effect is the selection reply and the
submission client is never called with that text. -/
theorem c7_label_redispatch (api : Option ApiConfig) (net : NetResult) (ud : UserData)
    (t v : String) (h : get_type_by_choice t = some v) :
    (step api net ⟨true, ud⟩ (.textMessage t)).2 = (handle_type_selection t ud).2.2 ∧
    step api net ⟨true, ud⟩ (.textMessage t) =
      (⟨true, ⟨some v, some t⟩⟩, [.reply (selectedMsg t) none]) := by
  constructor
  · simp [step, handle_content, h]
  · simp [step, handle_content, handle_type_selection, h, HandlerResult.isWaiting]

/-- Witness for C7: typing Task while category note is already selected. -/
theorem c7_label_redispatch_witness :
    get_type_by_choice "Task" = some "task" ∧
    ((step (some cfgW) netW ⟨true, ⟨some "note", some "Note"⟩⟩ (.textMessage "Task")).2 =
        (handle_type_selection "Task" ⟨some "note", some "Note"⟩).2.2 ∧
     step (some cfgW) netW ⟨true, ⟨some "note", some "Note"⟩⟩ (.textMessage "Task") =
        (⟨true, ⟨some "task", some "Task"⟩⟩, [.reply (selectedMsg "Task") none])) :=
  ⟨by decide,
   c7_label_redispatch (some cfgW) netW ⟨some "note", some "Note"⟩ "Task" "task"
     (by decide)⟩

/-- Claim C9: every raised exception inside post_entry becomes the outcome
pair of status 0 and the diagnostic Network error prefix followed by the
exception text; 0 is not a success status, so the engine reports it through
the failure message carrying status 0 and that diagnostic. -/
theorem c9_transport_failure (cfg : ApiConfig) (ud : UserData) (t e : String)
    (h1 : get_type_by_choice t = none) (h2 : py_strip t ≠ "") :
    (∀ (u : String) (hs : List (String × String)) (et : Option String) (c : String),
        post_entry u hs et c (.exn e) = (0, "Network error: " ++ e)) ∧
    ¬ ((0 : Nat) = 200 ∨ (0 : Nat) = 201) ∧
    (step (some cfg) (.exn e) ⟨true, ud⟩ (.textMessage t)).2 =
      [.submit ud.entry_type (py_strip t),
       .reply (failMsg (ud.type_display.getD "Entry") 0 ("Network error: " ++ e))
              (some TYPE_KEYBOARD)] := by
  refine ⟨fun u hs et c => rfl, by decide, ?_⟩
  simp [step, handle_content, h1, h2, post_entry]

/-- Witness for C9 with exception text connection refused, category note,
content buy milk. -/
theorem c9_transport_failure_witness :
    get_type_by_choice "buy milk" = none ∧ py_strip "buy milk" ≠ "" ∧
    ((∀ (u : String) (hs : List (String × String)) (et : Option String) (c : String),
        post_entry u hs et c (.exn "connection refused") =
          (0, "Network error: " ++ "connection refused")) ∧
     ¬ ((0 : Nat) = 200 ∨ (0 : Nat) = 201) ∧
     (step (some cfgW) (.exn "connection refused") ⟨true, ⟨some "note", some "Note"⟩⟩
        (.textMessage "buy milk")).2 =
       [.submit (some "note") (py_strip "buy milk"),
        .reply (failMsg "Note" 0 ("Network error: " ++ "connection refused"))
               (some TYPE_KEYBOARD)]) :=
  ⟨by decide, by decide,
   c9_transport_failure cfgW ⟨some "note", some "Note"⟩ "buy milk" "connection refused"
     (by decide) (by decide)⟩

/-- Claim C10: the category-label check runs on the raw message text while
the submitted content is the stripped text.  Whenever the raw text is not a
label but its stripped form is one, the message reaches the submission
branch and the first effect is a submission whose content is the stripped
text, i.e. the bare label; it is not treated as a category selection. -/
theorem c10_raw_label_check (cfg : ApiConfig) (net : NetResult) (ud : UserData)
    (t : String)
    (h1 : get_type_by_choice t = none)
    (h2 : (get_type_by_choice (py_strip t)).isSome) :
    ((step (some cfg) net ⟨true, ud⟩ (.textMessage t)).2).head? =
      some (.submit ud.entry_type (py_strip t)) := by
  have h3 : py_strip t ≠ "" := by
    intro hz
    rw [hz] at h2
    simp [get_type_by_choice] at h2
  simp only [step, handle_content, h1, h3, Option.isSome_none, Bool.false_eq_true,
    if_false]
  by_cases hs :
      (post_entry cfg.base_url cfg.headers ud.entry_type (py_strip t) net).1 = 200 ∨
      (post_entry cfg.base_url cfg.headers ud.entry_type (py_strip t) net).1 = 201 <;>
    simp [hs]

/-- Witness for C10 with the raw text Task surrounded by spaces, which
strips to the bare label Task. -/
theorem c10_raw_label_check_witness :
    get_type_by_choice " Task " = none ∧
    (get_type_by_choice (py_strip " Task ")).isSome ∧
    py_strip " Task " = "Task" ∧
    ((step (some cfgW) netW ⟨true, ⟨some "note", some "Note"⟩⟩
        (.textMessage " Task ")).2).head? =
      some (.submit (some "note") (py_strip " Task ")) :=
  ⟨by decide, by decide, by decide,
   c10_raw_label_check cfgW netW ⟨some "note", some "Note"⟩ " Task "
     (by decide) (by decide)⟩

end BucketBot
